import Mathlib

/-!
Verification of the banking ledger service (FastAPI/SQLAlchemy application)
against its natural-language specification.

The data model is a shallow embedding of src/app/models.py; the route
handlers are shallow embeddings of src/app/routes/{transactions,transfers,
accounts,cards}.py; request-validation predicates embed src/app/schemas.py.

Modelling conventions:
- UUID identifiers are modelled as natural numbers (only equality of
  identifiers is ever used by the code).
- Numeric(10,2) money columns are exact decimals; they are modelled as
  integer cents.
- Timestamps (created_at, expiry_date, utcnow) are modelled as naturals;
  created_at columns are omitted since no verified property reads them.
- Each route handler wraps its body in try/except with db.rollback() in
  every handler and a single db.commit() as the last statement of the
  success path, so a handler is modelled as a function from the committed
  state to (Except error newCommittedState): an error leaves the committed
  state untouched, exactly as rollback does.
-/

deriving instance DecidableEq for Except

namespace Bank

/-- Account status enum, models.py AccountStatus (lines 25-28). -/
inductive AccountStatus
| active
| frozen
| closed
deriving DecidableEq, Repr

/-- Card status enum, models.py CardStatus (lines 53-56). -/
inductive CardStatus
| active
| frozen
| cancelled
deriving DecidableEq, Repr

/-- Account type enum, models.py AccountType (lines 20-22). -/
inductive AccountType
| checking
| savings
deriving DecidableEq, Repr

/-- Card type enum, models.py CardType (lines 48-50). -/
inductive CardType
| debit
| credit
deriving DecidableEq, Repr

/-- Transaction direction enum, models.py TransactionDirection (lines 31-33). -/
inductive TxDirection
| debit
| credit
deriving DecidableEq, Repr

/-- Transaction category enum, models.py TransactionCategory (lines 36-40). -/
inductive TxCategory
| transfer
| cardPayment
| deposit
| withdrawal
deriving DecidableEq, Repr

/-- Account row, models.py Account (lines 75-88).  Balance and
overdraft_limit are Numeric(10,2) columns, modelled as integer cents. -/
structure Account where
  id : Nat
  userId : Nat
  type : AccountType
  balance : Int
  status : AccountStatus
  overdraftLimit : Int
deriving DecidableEq, Repr

/-- Transaction row, models.py Transaction (lines 91-109).  The column
named "type" holds the direction (DEBIT or CREDIT). -/
structure Transaction where
  id : Nat
  accountId : Nat
  type : TxDirection
  amount : Int
  description : Option String
  reference : Option String
  category : TxCategory
  cardId : Option Nat
  transferId : Option Nat
deriving DecidableEq, Repr

/-- Transfer row, models.py Transfer (lines 112-122). -/
structure TransferRow where
  id : Nat
  sourceAccountId : Nat
  destinationAccountId : Nat
  amount : Int
  description : Option String
  sourceTransactionId : Nat
  destinationTransactionId : Nat
deriving DecidableEq, Repr

/-- Card row, models.py Card (lines 125-141).  The cvv column is declared
`Column(String, nullable=False)` at models.py line 132; the field below is
an Option so that a row built without a cvv value (as cards.py does) can be
represented, and the NOT NULL constraint is a separate check. -/
structure CardRecord where
  id : Nat
  accountId : Nat
  cardNumber : Nat
  cardHolderName : String
  cvv : Option String
  pinHash : String
  cardType : CardType
  expiryDate : Nat
  status : CardStatus
  spendingLimit : Option Int
deriving DecidableEq, Repr

/-- NOT NULL constraint on the cards.cvv column, models.py line 132:
a Card row is accepted by the declared schema only when it carries a
cvv value. -/
def cardRowRespectsNotNull (c : CardRecord) : Bool :=
  c.cvv.isSome

/-- The committed database state: the four tables the ledger routes touch. -/
structure LedgerState where
  accounts : List Account
  transactions : List Transaction
  transfers : List TransferRow
  cards : List CardRecord
deriving DecidableEq, Repr

/-- Error taxonomy of spec section 7.  Each route failure site is mapped to
the kind named by the spec for that situation. -/
inductive ErrKind
| notFound
| forbidden
| invalidArgument
| invalidState
| insufficientFunds
| limitExceeded
| busy
| conflict
| internal
deriving DecidableEq, Repr, Fintype

/-- HTTP status code each error kind is surfaced with, read off the raise
sites of the routes: 404 (HTTPException in account/card lookups), 403
(ownership checks, transactions.py 45-48/116-120, transfers.py 54-58), 400
(amount checks, status checks, insufficient funds, spending limit,
IntegrityError handlers), 500 (the catch-all `except Exception` handlers
and unhandled store errors, which is where a lock busy-timeout surfaces). -/
def statusCodeOf : ErrKind → Nat
| .notFound => 404
| .forbidden => 403
| .invalidArgument => 400
| .invalidState => 400
| .insufficientFunds => 400
| .limitExceeded => 400
| .conflict => 400
| .busy => 500
| .internal => 500

/-- Lookup of an account row by primary key, the
`select(Account).filter(Account.id == ...)` pattern of the routes. -/
def findAccount (s : LedgerState) (i : Nat) : Option Account :=
  s.accounts.find? (fun a => a.id == i)

/-- Lookup filtered by both id and owner, the
`filter(Account.id == id, Account.user_id == current_user.id)` pattern of
accounts.py. -/
def findAccountOwned (s : LedgerState) (callerId i : Nat) : Option Account :=
  s.accounts.find? (fun a => a.id == i && a.userId == callerId)

/-- In-place mutation of the ORM row fetched by primary key, as committed:
the row with the given id is replaced by its image under f. -/
def updateAccount (s : LedgerState) (i : Nat) (f : Account → Account) : LedgerState :=
  { s with accounts := s.accounts.map (fun a => if a.id = i then f a else a) }

/-- Signed amount of a transaction: CREDIT adds, DEBIT subtracts
(spec section 3 and glossary). -/
def signedAmount (t : Transaction) : Int :=
  match t.type with
  | .credit => t.amount
  | .debit => -t.amount

/-- Sum of the signed amounts of the transactions of one account. -/
def txSum (txs : List Transaction) (aid : Nat) : Int :=
  ((txs.filter (fun t => t.accountId == aid)).map signedAmount).sum

/-- Balance integrity over explicit account and transaction tables: every
account's balance equals the sum of signed amounts of its transactions. -/
def balList (accs : List Account) (txs : List Transaction) : Prop :=
  ∀ a ∈ accs, a.balance = txSum txs a.id

instance (accs : List Account) (txs : List Transaction) : Decidable (balList accs txs) := by
  unfold balList
  infer_instance

/-- Balance integrity invariant of spec sections 3 and 8: every account's
balance equals the sum of signed amounts of its committed transactions. -/
def balancesOk (s : LedgerState) : Prop :=
  balList s.accounts s.transactions

instance (s : LedgerState) : Decidable (balancesOk s) := by
  unfold balancesOk
  infer_instance

/-- Deposit handler, transactions.py create_deposit (lines 22-89).
Checks in source order: amount positive (line 31), account found (40),
ownership (44), ACTIVE status (51); then appends a CREDIT transaction of
category DEPOSIT (61-71) and adds the amount to the balance (74), committed
together (76).  Amount is in cents; txId models the generated primary key. -/
def create_deposit (s : LedgerState) (callerId accountId : Nat) (amount : Int)
    (description : Option String) (txId : Nat) : Except ErrKind LedgerState :=
  if amount ≤ 0 then .error .invalidArgument
  else
    match findAccount s accountId with
    | none => .error .notFound
    | some account =>
      if account.userId ≠ callerId then .error .forbidden
      else if account.status ≠ .active then .error .invalidState
      else
        let tx : Transaction :=
          { id := txId, accountId := account.id, type := .credit, amount := amount,
            description := some (description.getD "Deposit"), reference := none,
            category := .deposit, cardId := none, transferId := none }
        let s' := updateAccount s accountId (fun a => { a with balance := a.balance + amount })
        .ok { s' with transactions := tx :: s'.transactions }

/-- Withdrawal handler, transactions.py create_withdrawal (lines 94-168).
Checks in source order: amount positive (103), account found (112),
ownership (116), ACTIVE status (123), then the funds check
`account.balance < amount` (133) — the account's overdraft_limit is not
consulted; then appends a DEBIT transaction of category WITHDRAWAL
(140-150) and subtracts the amount from the balance (153). -/
def create_withdrawal (s : LedgerState) (callerId accountId : Nat) (amount : Int)
    (description : Option String) (txId : Nat) : Except ErrKind LedgerState :=
  if amount ≤ 0 then .error .invalidArgument
  else
    match findAccount s accountId with
    | none => .error .notFound
    | some account =>
      if account.userId ≠ callerId then .error .forbidden
      else if account.status ≠ .active then .error .invalidState
      else if account.balance < amount then .error .insufficientFunds
      else
        let tx : Transaction :=
          { id := txId, accountId := account.id, type := .debit, amount := amount,
            description := some (description.getD "Withdrawal"), reference := none,
            category := .withdrawal, cardId := none, transferId := none }
        let s' := updateAccount s accountId (fun a => { a with balance := a.balance - amount })
        .ok { s' with transactions := tx :: s'.transactions }

/-- Card lookup joined with its owning account and filtered by the caller,
the `select(Card).join(Account).filter(Card.id == ..., Account.user_id ==
current_user.id)` pattern of transactions.py (191-194) and cards.py. -/
def findCardOwned (s : LedgerState) (callerId cardId : Nat) : Option CardRecord :=
  s.cards.find? (fun c =>
    c.id == cardId && s.accounts.any (fun a => a.id == c.accountId && a.userId == callerId))

/-- Card payment handler, transactions.py create_card_payment (177-286).
Checks in source order: amount positive (186), card found via the owner
join (191-200), FROZEN status (203), CANCELLED status (209), expiry
`expiry_date < utcnow` (216), spending limit — the Python truthiness test
`if card.spending_limit:` skips the check both when the limit is NULL and
when it is zero — (223-229), owning account found (232-237), account ACTIVE
(240), funds check `account.balance < amount` (250) with no overdraft
term; then a DEBIT transaction of category CARD_PAYMENT carrying the card
back-reference (257-268) and the balance decrement (271). -/
def create_card_payment (s : LedgerState) (callerId cardId : Nat) (amount : Int)
    (description merchant : Option String) (now : Nat) (txId : Nat) :
    Except ErrKind LedgerState :=
  if amount ≤ 0 then .error .invalidArgument
  else
    match findCardOwned s callerId cardId with
    | none => .error .notFound
    | some card =>
      if card.status = .frozen then .error .invalidState
      else if card.status = .cancelled then .error .invalidState
      else if card.expiryDate < now then .error .invalidState
      else if (match card.spendingLimit with
               | none => false
               | some l => l ≠ 0 && amount > l) then .error .limitExceeded
      else
        match findAccount s card.accountId with
        | none => .error .notFound
        | some account =>
          if account.status ≠ .active then .error .invalidState
          else if account.balance < amount then .error .insufficientFunds
          else
            let tx : Transaction :=
              { id := txId, accountId := account.id, type := .debit, amount := amount,
                description := some (description.getD
                  ("Card payment - " ++ merchant.getD "Merchant")),
                reference := none, category := .cardPayment,
                cardId := some card.id, transferId := none }
            let s' := updateAccount s card.accountId
              (fun a => { a with balance := a.balance - amount })
            .ok { s' with transactions := tx :: s'.transactions }

/-- Transfer handler, transfers.py create_transfer (22-164), committed-state
result.  Checks in source order: amount positive (33), distinct accounts
(37), source found (46-51), source ownership (54), source ACTIVE (61),
destination found (68-73), destination ACTIVE (76), funds check
`source_account.balance < amount` (86) with no overdraft term.  Then one
DEBIT transaction on the source and one CREDIT transaction on the
destination, both of category TRANSFER and sharing the reference string
(93-123), the two balance updates (126-127), and one Transfer row linking
the two transaction ids (130-139), committed as one unit (142). -/
def create_transfer (s : LedgerState) (callerId srcId dstId : Nat) (amount : Int)
    (description : Option String) (ref : String)
    (debitTxId creditTxId transferRowId : Nat) : Except ErrKind LedgerState :=
  if amount ≤ 0 then .error .invalidArgument
  else if srcId = dstId then .error .invalidArgument
  else
    match findAccount s srcId with
    | none => .error .notFound
    | some source =>
      if source.userId ≠ callerId then .error .forbidden
      else if source.status ≠ .active then .error .invalidState
      else
        match findAccount s dstId with
        | none => .error .notFound
        | some destination =>
          if destination.status ≠ .active then .error .invalidState
          else if source.balance < amount then .error .insufficientFunds
          else
            let debitTx : Transaction :=
              { id := debitTxId, accountId := source.id, type := .debit, amount := amount,
                description := some (description.getD
                  ("Transfer to account " ++ toString destination.id)),
                reference := some ref, category := .transfer,
                cardId := none, transferId := some transferRowId }
            let creditTx : Transaction :=
              { id := creditTxId, accountId := destination.id, type := .credit,
                amount := amount,
                description := some (description.getD
                  ("Transfer from account " ++ toString source.id)),
                reference := some ref, category := .transfer,
                cardId := none, transferId := some transferRowId }
            let row : TransferRow :=
              { id := transferRowId, sourceAccountId := source.id,
                destinationAccountId := destination.id, amount := amount,
                description := description,
                sourceTransactionId := debitTxId,
                destinationTransactionId := creditTxId }
            let s₁ := updateAccount s srcId (fun a => { a with balance := a.balance - amount })
            let s₂ := updateAccount s₁ dstId (fun a => { a with balance := a.balance + amount })
            .ok { s₂ with
                  transactions := creditTx :: debitTx :: s₂.transactions,
                  transfers := row :: s₂.transfers }

/-- Close-account handler, accounts.py close_account (187-220).  The query
filters by id and owner together (195-198), so a foreign account reads as
not found; then: already CLOSED (203), non-zero balance (210); on success
the status becomes CLOSED (216). -/
def close_account (s : LedgerState) (callerId accountId : Nat) :
    Except ErrKind LedgerState :=
  match findAccountOwned s callerId accountId with
  | none => .error .notFound
  | some account =>
    if account.status = .closed then .error .invalidState
    else if account.balance ≠ 0 then .error .invalidState
    else .ok (updateAccount s accountId (fun a => { a with status := .closed }))

/-- Card-creation handler, cards.py create_card (86-173).  Checks in source
order: account found and owned (96-105), account ACTIVE (108), PIN is four
digits (115).  The card number is drawn from a cryptographically random
stream, retried up to 100 times until unused (122-128); the stream is
passed in as the list of candidates.  The CVV is derived from the card
number and expiry by the external HMAC collaborator (spec section 6),
passed in as hmacCvv, and is used only in the response.  The Card row is
then built WITHOUT a cvv value (145-154) and inserted; the cards.cvv column
is declared NOT NULL (models.py 132), the handler has no except clause, so
a constraint violation at commit surfaces as an unhandled 500.  On success
the result carries the new state, the stored row, and the response CVV. -/
def create_card (hmacCvv : Nat → Nat → String) (s : LedgerState)
    (callerId accountId : Nat) (candidates : List Nat)
    (cardHolderName pin pinHashed : String) (cardType : CardType)
    (spendingLimit : Option Int) (expiryDate cardId : Nat) :
    Except ErrKind (LedgerState × CardRecord × String) :=
  match findAccountOwned s callerId accountId with
  | none => .error .notFound
  | some account =>
    if account.status ≠ .active then .error .invalidState
    else if ¬ (pin.length = 4 ∧ pin.toList.all Char.isDigit) then .error .invalidArgument
    else
      match (candidates.take 100).find?
          (fun n => ¬ s.cards.any (fun c => c.cardNumber == n)) with
      | none => .error .internal
      | some cardNumber =>
        let cvv := hmacCvv cardNumber expiryDate
        let dbCard : CardRecord :=
          { id := cardId, accountId := accountId, cardNumber := cardNumber,
            cardHolderName := cardHolderName, cvv := none, pinHash := pinHashed,
            cardType := cardType, expiryDate := expiryDate, status := .active,
            spendingLimit := spendingLimit }
        if cardRowRespectsNotNull dbCard then
          .ok ({ s with cards := dbCard :: s.cards }, dbCard, cvv)
        else .error .internal

/-- Store-failure injection points inside the transfer handler's atomic
unit: the flush after the debit leg (transfers.py 109), the flush after the
credit leg (123), and the final persist-and-commit of the Transfer row
(139-142).  Spec section 8 calls this a simulated store failure. -/
structure TransferFaults where
  failDebitFlush : Bool
  failCreditFlush : Bool
  failCommit : Bool
deriving DecidableEq, Repr

/-- No injected store failure. -/
def TransferFaults.none : TransferFaults :=
  { failDebitFlush := false, failCreditFlush := false, failCommit := false }

/-- Observable outcome of one run of the transfer handler: the committed
state after the request, the row locks taken in acquisition order (the ids
passed to `with_for_update`, recorded when the row is found), and the error
if any.  Any raised error reaches the except clause, which rolls the
session back (transfers.py 156-164), so the committed state of a failed run
is the input state. -/
structure TransferRun where
  committed : LedgerState
  locks : List Nat
  outcome : Option ErrKind
deriving DecidableEq, Repr

/-- Transfer handler, transfers.py create_transfer (22-164), session-level
view: the same checks as create_transfer in the same source order, plus the
lock trace (source row locked at line 46, destination row at line 68 —
always in that order, with no comparison of the two identifiers) and the
three store-failure injection points inside the atomic unit.  A committed
mutation happens only at the final commit (142); every failure path rolls
back to the input state. -/
def create_transfer_run (faults : TransferFaults) (s : LedgerState)
    (callerId srcId dstId : Nat) (amount : Int) (description : Option String)
    (ref : String) (debitTxId creditTxId transferRowId : Nat) : TransferRun :=
  if amount ≤ 0 then ⟨s, [], some .invalidArgument⟩
  else if srcId = dstId then ⟨s, [], some .invalidArgument⟩
  else
    match findAccount s srcId with
    | none => ⟨s, [], some .notFound⟩
    | some source =>
      if source.userId ≠ callerId then ⟨s, [srcId], some .forbidden⟩
      else if source.status ≠ .active then ⟨s, [srcId], some .invalidState⟩
      else
        match findAccount s dstId with
        | none => ⟨s, [srcId], some .notFound⟩
        | some destination =>
          if destination.status ≠ .active then ⟨s, [srcId, dstId], some .invalidState⟩
          else if source.balance < amount then ⟨s, [srcId, dstId], some .insufficientFunds⟩
          else if faults.failDebitFlush then ⟨s, [srcId, dstId], some .internal⟩
          else if faults.failCreditFlush then ⟨s, [srcId, dstId], some .internal⟩
          else if faults.failCommit then ⟨s, [srcId, dstId], some .internal⟩
          else
            match create_transfer s callerId srcId dstId amount description ref
                debitTxId creditTxId transferRowId with
            | .ok s' => ⟨s', [srcId, dstId], Option.none⟩
            | .error e => ⟨s, [srcId, dstId], some e⟩

/-- Request-validation predicate shared by the four amount-carrying
schemas, schemas.py: Field(gt=0, le=cap) plus the validate_decimal_places
validator `round(v, 2) != v`, which in exact arithmetic says 100·v is an
integer. -/
def validAmount (cap : ℚ) (v : ℚ) : Prop :=
  0 < v ∧ v ≤ cap ∧ (100 * v).den = 1

instance (cap v : ℚ) : Decidable (validAmount cap v) := by
  unfold validAmount
  infer_instance

/-- DepositCreate amount validation, schemas.py 118-133: cap 100000. -/
def DepositCreate_accepts (v : ℚ) : Prop :=
  validAmount 100000 v

/-- WithdrawalCreate amount validation, schemas.py 136-151: cap 50000. -/
def WithdrawalCreate_accepts (v : ℚ) : Prop :=
  validAmount 50000 v

/-- TransferCreate amount validation, schemas.py 80-96: cap 1000000. -/
def TransferCreate_accepts (v : ℚ) : Prop :=
  validAmount 1000000 v

/-- CardPaymentCreate amount validation, schemas.py 245-263: cap 10000. -/
def CardPaymentCreate_accepts (v : ℚ) : Prop :=
  validAmount 10000 v

instance (v : ℚ) : Decidable (DepositCreate_accepts v) := by
  unfold DepositCreate_accepts
  infer_instance

instance (v : ℚ) : Decidable (WithdrawalCreate_accepts v) := by
  unfold WithdrawalCreate_accepts
  infer_instance

instance (v : ℚ) : Decidable (TransferCreate_accepts v) := by
  unfold TransferCreate_accepts
  infer_instance

instance (v : ℚ) : Decidable (CardPaymentCreate_accepts v) := by
  unfold CardPaymentCreate_accepts
  infer_instance

/-- Conversion of a validated request amount to exact cents, the
`Decimal(str(amount))` step of the routes: for an amount with at most two
fractional digits, 100·v is an integer and its numerator is the cents. -/
def toCents (v : ℚ) : Int :=
  (100 * v).num

/-- A request either fails pydantic validation (FastAPI rejects it before
the route body runs) or reaches the route and can fail there. -/
inductive RouteError
| validation
| business (k : ErrKind)
deriving DecidableEq, Repr

/-- Full deposit endpoint: DepositCreate validation, then the route body. -/
def deposit_endpoint (s : LedgerState) (callerId accountId : Nat) (v : ℚ)
    (description : Option String) (txId : Nat) : Except RouteError LedgerState :=
  if DepositCreate_accepts v then
    (create_deposit s callerId accountId (toCents v) description txId).mapError .business
  else .error .validation

/-- Full withdrawal endpoint: WithdrawalCreate validation, then the route
body. -/
def withdrawal_endpoint (s : LedgerState) (callerId accountId : Nat) (v : ℚ)
    (description : Option String) (txId : Nat) : Except RouteError LedgerState :=
  if WithdrawalCreate_accepts v then
    (create_withdrawal s callerId accountId (toCents v) description txId).mapError .business
  else .error .validation

/-- Full transfer endpoint: TransferCreate validation, then the route body. -/
def transfer_endpoint (s : LedgerState) (callerId srcId dstId : Nat) (v : ℚ)
    (description : Option String) (ref : String)
    (debitTxId creditTxId transferRowId : Nat) : Except RouteError LedgerState :=
  if TransferCreate_accepts v then
    (create_transfer s callerId srcId dstId (toCents v) description ref
      debitTxId creditTxId transferRowId).mapError .business
  else .error .validation

/-- Full card-payment endpoint: CardPaymentCreate validation, then the
route body. -/
def card_payment_endpoint (s : LedgerState) (callerId cardId : Nat) (v : ℚ)
    (description merchant : Option String) (now : Nat) (txId : Nat) :
    Except RouteError LedgerState :=
  if CardPaymentCreate_accepts v then
    (create_card_payment s callerId cardId (toCents v) description merchant now txId).mapError .business
  else .error .validation

/-- One committed ledger operation with its request parameters. -/
inductive Op
| deposit (callerId accountId : Nat) (amount : Int) (description : Option String) (txId : Nat)
| withdrawal (callerId accountId : Nat) (amount : Int) (description : Option String) (txId : Nat)
| cardPayment (callerId cardId : Nat) (amount : Int) (description merchant : Option String)
    (now : Nat) (txId : Nat)
| transfer (callerId srcId dstId : Nat) (amount : Int) (description : Option String)
    (ref : String) (debitTxId creditTxId transferRowId : Nat)
deriving Repr

/-- Committed effect of one operation: the new state on success, the
unchanged state when the handler fails (every handler rolls its session
back on any error before re-raising). -/
def applyOp (s : LedgerState) : Op → LedgerState
| .deposit c a amt d t =>
  match create_deposit s c a amt d t with
  | .ok s' => s'
  | .error _ => s
| .withdrawal c a amt d t =>
  match create_withdrawal s c a amt d t with
  | .ok s' => s'
  | .error _ => s
| .cardPayment c cd amt d m now t =>
  match create_card_payment s c cd amt d m now t with
  | .ok s' => s'
  | .error _ => s
| .transfer c src dst amt d r t₁ t₂ t₃ =>
  match create_transfer s c src dst amt d r t₁ t₂ t₃ with
  | .ok s' => s'
  | .error _ => s

/-- Committed effect of a sequence of operations. -/
def applyOps (s : LedgerState) (ops : List Op) : LedgerState :=
  ops.foldl applyOp s

/-- Account with a positive overdraft limit (balance 10.00, overdraft limit
100.00), used to exercise the funds checks of the debit handlers. -/
def stateC2 : LedgerState :=
  ⟨[{ id := 1, userId := 1, type := .checking, balance := 1000,
      status := .active, overdraftLimit := 10000 }], [], [], []⟩

/-- Two ACTIVE accounts where the funded source account (id 2, owned by
user 7) has the larger identifier and the destination (id 1) the smaller. -/
def stateC3 : LedgerState :=
  ⟨[{ id := 2, userId := 7, type := .checking, balance := 5000,
      status := .active, overdraftLimit := 0 },
    { id := 1, userId := 9, type := .savings, balance := 0,
      status := .active, overdraftLimit := 0 }], [], [], []⟩

/-- Committed state after the 5.00 transfer from account 2 to account 1 on
stateC3 with reference TRF-A and generated ids 10, 11, 12. -/
def stateC3' : LedgerState :=
  ⟨[{ id := 2, userId := 7, type := .checking, balance := 4500,
      status := .active, overdraftLimit := 0 },
    { id := 1, userId := 9, type := .savings, balance := 500,
      status := .active, overdraftLimit := 0 }],
   [{ id := 11, accountId := 1, type := .credit, amount := 500,
      description := some "Transfer from account 2", reference := some "TRF-A",
      category := .transfer, cardId := Option.none, transferId := some 12 },
    { id := 10, accountId := 2, type := .debit, amount := 500,
      description := some "Transfer to account 1", reference := some "TRF-A",
      category := .transfer, cardId := Option.none, transferId := some 12 }],
   [{ id := 12, sourceAccountId := 2, destinationAccountId := 1, amount := 500,
      description := Option.none, sourceTransactionId := 10,
      destinationTransactionId := 11 }], []⟩

/-- One account holding 0.01 (cannot be closed) and one holding exactly
0.00 (can be closed), both ACTIVE and owned by user 1. -/
def stateC7 : LedgerState :=
  ⟨[{ id := 1, userId := 1, type := .checking, balance := 1,
      status := .active, overdraftLimit := 0 },
    { id := 2, userId := 1, type := .checking, balance := 0,
      status := .active, overdraftLimit := 0 }], [], [], []⟩

/-- One ACTIVE account owned by user 1 and no cards, ready for card
creation. -/
def stateC8 : LedgerState :=
  ⟨[{ id := 1, userId := 1, type := .checking, balance := 0,
      status := .active, overdraftLimit := 0 }], [], [], []⟩

/-- A FROZEN funded account (id 1) and an ACTIVE empty account (id 2),
both owned by user 1: withdrawals fail on the first with InvalidState and
on the second with InsufficientFunds. -/
def stateC9 : LedgerState :=
  ⟨[{ id := 1, userId := 1, type := .checking, balance := 10000,
      status := .frozen, overdraftLimit := 0 },
    { id := 2, userId := 1, type := .checking, balance := 0,
      status := .active, overdraftLimit := 0 }], [], [], []⟩

/-- The empty ledger. -/
def emptyState : LedgerState :=
  ⟨[], [], [], []⟩

/-- The error kinds every one of which the routes surface as HTTP 400. -/
def badRequestKinds : List ErrKind :=
  [.invalidArgument, .invalidState, .insufficientFunds, .limitExceeded, .conflict]

/-- The error kinds the routes surface as HTTP 500. -/
def serverErrorKinds : List ErrKind :=
  [.busy, .internal]

theorem txSum_cons (t : Transaction) (ts : List Transaction) (aid : Nat) :
    txSum (t :: ts) aid
      = (if t.accountId = aid then signedAmount t else 0) + txSum ts aid := by
  by_cases h : t.accountId = aid <;> simp [txSum, List.filter_cons, h]

theorem findAccount_id {s : LedgerState} {i : Nat} {a : Account}
    (h : findAccount s i = some a) : a.id = i := by
  unfold findAccount at h
  simpa using List.find?_some h

theorem findAccount_mem {s : LedgerState} {i : Nat} {a : Account}
    (h : findAccount s i = some a) : a ∈ s.accounts :=
  List.mem_of_find?_eq_some h

theorem findAccountOwned_spec {s : LedgerState} {c i : Nat} {a : Account}
    (h : findAccountOwned s c i = some a) : a.id = i ∧ a.userId = c := by
  unfold findAccountOwned at h
  simpa using List.find?_some h

theorem find?_map_comm {α : Type} (φ : α → α) (p : α → Bool) (l : List α)
    (hcomm : ∀ a, p (φ a) = p a) :
    (l.map φ).find? p = (l.find? p).map φ := by
  induction l with
  | nil => simp
  | cons a l ih =>
    by_cases h : p a = true
    · rw [List.map_cons, List.find?_cons_of_pos _ (by rw [hcomm]; exact h),
        List.find?_cons_of_pos _ h, Option.map_some']
    · have h' : p a = false := by simpa using h
      rw [List.map_cons, List.find?_cons_of_neg _ (by rw [hcomm, h']; simp),
        List.find?_cons_of_neg _ (by rw [h']; simp), ih]

theorem findAccount_updateAccount (s : LedgerState) (i j : Nat) (f : Account → Account)
    (hid : ∀ a, (f a).id = a.id) :
    findAccount (updateAccount s i f) j
      = (findAccount s j).map (fun a => if a.id = i then f a else a) := by
  unfold findAccount updateAccount
  exact find?_map_comm _ _ _ (fun a => by by_cases h : a.id = i <;> simp [h, hid])

theorem balList_bump (accs : List Account) (txs : List Transaction) (aid : Nat)
    (δ : Int) (tx : Transaction) (f : Account → Account)
    (hacc : tx.accountId = aid) (hsig : signedAmount tx = δ)
    (hid : ∀ a, (f a).id = a.id) (hbal : ∀ a, (f a).balance = a.balance + δ)
    (h : balList accs txs) :
    balList (accs.map (fun a => if a.id = aid then f a else a)) (tx :: txs) := by
  intro a' ha'
  obtain ⟨a, ha, rfl⟩ := List.mem_map.mp ha'
  rw [txSum_cons]
  by_cases hcase : a.id = aid
  · have h1 : (if a.id = aid then f a else a) = f a := if_pos hcase
    rw [h1, hbal a, hid a, hcase, hacc, hsig, h a ha, if_pos rfl, hcase]
    ring
  · have h1 : (if a.id = aid then f a else a) = a := if_neg hcase
    rw [h1]
    have h2 : ¬ tx.accountId = a.id := by
      rw [hacc]
      exact fun hc => hcase hc.symm
    rw [if_neg h2, h a ha]
    ring

theorem create_deposit_eq_ok {s : LedgerState} {c aid t : Nat} {amt : Int}
    {d : Option String} {acct : Account}
    (hfind : findAccount s aid = some acct) (hown : acct.userId = c)
    (hst : acct.status = .active) (hamt : 0 < amt) :
    create_deposit s c aid amt d t = .ok
      { updateAccount s aid (fun a => { a with balance := a.balance + amt }) with
        transactions :=
          { id := t, accountId := acct.id, type := .credit, amount := amt,
            description := some (d.getD "Deposit"), reference := Option.none,
            category := .deposit, cardId := Option.none, transferId := Option.none }
          :: s.transactions } := by
  have h0 : ¬ amt ≤ 0 := by omega
  simp [create_deposit, hfind, h0, hown, hst, updateAccount]

theorem create_withdrawal_eq_ok {s : LedgerState} {c aid t : Nat} {amt : Int}
    {d : Option String} {acct : Account}
    (hfind : findAccount s aid = some acct) (hown : acct.userId = c)
    (hst : acct.status = .active) (hamt : 0 < amt) (hnl : ¬ acct.balance < amt) :
    create_withdrawal s c aid amt d t = .ok
      { updateAccount s aid (fun a => { a with balance := a.balance - amt }) with
        transactions :=
          { id := t, accountId := acct.id, type := .debit, amount := amt,
            description := some (d.getD "Withdrawal"), reference := Option.none,
            category := .withdrawal, cardId := Option.none, transferId := Option.none }
          :: s.transactions } := by
  have h0 : ¬ amt ≤ 0 := by omega
  simp [create_withdrawal, hfind, h0, hown, hst, hnl, updateAccount]

theorem create_transfer_eq_ok {s : LedgerState} {c src dst t₁ t₂ t₃ : Nat}
    {amt : Int} {d : Option String} {r : String} {source destination : Account}
    (hne : src ≠ dst) (hsrc : findAccount s src = some source)
    (hown : source.userId = c) (hst : source.status = .active)
    (hdst : findAccount s dst = some destination)
    (hdstst : destination.status = .active)
    (hamt : 0 < amt) (hnl : ¬ source.balance < amt) :
    create_transfer s c src dst amt d r t₁ t₂ t₃ = .ok
      { updateAccount
          (updateAccount s src (fun a => { a with balance := a.balance - amt }))
          dst (fun a => { a with balance := a.balance + amt }) with
        transactions :=
          { id := t₂, accountId := destination.id, type := .credit, amount := amt,
            description := some (d.getD ("Transfer from account " ++ toString source.id)),
            reference := some r, category := .transfer,
            cardId := Option.none, transferId := some t₃ } ::
          { id := t₁, accountId := source.id, type := .debit, amount := amt,
            description := some (d.getD ("Transfer to account " ++ toString destination.id)),
            reference := some r, category := .transfer,
            cardId := Option.none, transferId := some t₃ } :: s.transactions,
        transfers :=
          { id := t₃, sourceAccountId := source.id,
            destinationAccountId := destination.id, amount := amt,
            description := d, sourceTransactionId := t₁,
            destinationTransactionId := t₂ } :: s.transfers } := by
  have h0 : ¬ amt ≤ 0 := by omega
  simp [create_transfer, hsrc, hdst, h0, hne, hown, hst, hdstst, hnl, updateAccount]

theorem create_card_payment_eq_ok {s : LedgerState} {c cd t now : Nat} {amt : Int}
    {d m : Option String} {card : CardRecord} {acct : Account}
    (hcard : findCardOwned s c cd = some card)
    (hfr : card.status ≠ .frozen) (hca : card.status ≠ .cancelled)
    (hexp : ¬ card.expiryDate < now)
    (hlim : ∀ l, card.spendingLimit = some l → l = 0 ∨ amt ≤ l)
    (hfind : findAccount s card.accountId = some acct)
    (hst : acct.status = .active) (hamt : 0 < amt) (hnl : ¬ acct.balance < amt) :
    create_card_payment s c cd amt d m now t = .ok
      { updateAccount s card.accountId (fun a => { a with balance := a.balance - amt }) with
        transactions :=
          { id := t, accountId := acct.id, type := .debit, amount := amt,
            description := some (d.getD ("Card payment - " ++ m.getD "Merchant")),
            reference := Option.none, category := .cardPayment,
            cardId := some card.id, transferId := Option.none }
          :: s.transactions } := by
  have h0 : ¬ amt ≤ 0 := by omega
  cases hsl : card.spendingLimit with
  | none => simp [create_card_payment, hcard, hfind, hsl, h0, hfr, hca, hexp, hst, hnl, updateAccount]
  | some l =>
    rcases hlim l hsl with h | h
    · subst h
      simp [create_card_payment, hcard, hfind, hsl, h0, hfr, hca, hexp, hst, hnl, updateAccount]
    · have hgt : ¬ l < amt := by omega
      simp [create_card_payment, hcard, hfind, hsl, h0, hfr, hca, hexp, hst, hnl, hgt, updateAccount]

theorem create_card_payment_eq_insufficient {s : LedgerState} {c cd t now : Nat}
    {amt : Int} {d m : Option String} {card : CardRecord} {acct : Account}
    (hcard : findCardOwned s c cd = some card)
    (hfr : card.status ≠ .frozen) (hca : card.status ≠ .cancelled)
    (hexp : ¬ card.expiryDate < now)
    (hlim : ∀ l, card.spendingLimit = some l → l = 0 ∨ amt ≤ l)
    (hfind : findAccount s card.accountId = some acct)
    (hst : acct.status = .active) (hamt : 0 < amt) (hlt : acct.balance < amt) :
    create_card_payment s c cd amt d m now t = .error .insufficientFunds := by
  have h0 : ¬ amt ≤ 0 := by omega
  cases hsl : card.spendingLimit with
  | none => simp [create_card_payment, hcard, hfind, hsl, h0, hfr, hca, hexp, hst, hlt]
  | some l =>
    rcases hlim l hsl with h | h
    · subst h
      simp [create_card_payment, hcard, hfind, hsl, h0, hfr, hca, hexp, hst, hlt]
    · have hgt : ¬ l < amt := by omega
      simp [create_card_payment, hcard, hfind, hsl, h0, hfr, hca, hexp, hst, hlt, hgt]

theorem create_deposit_ok_balances {s s' : LedgerState} {c a t : Nat} {amt : Int}
    {d : Option String}
    (h : create_deposit s c a amt d t = .ok s') (hb : balancesOk s) : balancesOk s' := by
  unfold create_deposit at h
  split at h
  · exact Except.noConfusion h
  split at h
  · exact Except.noConfusion h
  next account heq =>
  split at h
  · exact Except.noConfusion h
  split at h
  · exact Except.noConfusion h
  simp only [Except.ok.injEq] at h
  subst h
  exact balList_bump s.accounts s.transactions a amt _ _ (findAccount_id heq) rfl
    (fun _ => rfl) (fun _ => rfl) hb

theorem create_withdrawal_ok_balances {s s' : LedgerState} {c a t : Nat} {amt : Int}
    {d : Option String}
    (h : create_withdrawal s c a amt d t = .ok s') (hb : balancesOk s) : balancesOk s' := by
  unfold create_withdrawal at h
  split at h
  · exact Except.noConfusion h
  split at h
  · exact Except.noConfusion h
  next account heq =>
  split at h
  · exact Except.noConfusion h
  split at h
  · exact Except.noConfusion h
  split at h
  · exact Except.noConfusion h
  simp only [Except.ok.injEq] at h
  subst h
  exact balList_bump s.accounts s.transactions a (-amt) _ _ (findAccount_id heq) rfl
    (fun _ => rfl) (fun _ => Int.sub_eq_add_neg) hb

theorem create_card_payment_ok_balances {s s' : LedgerState} {c cd t now : Nat}
    {amt : Int} {d m : Option String}
    (h : create_card_payment s c cd amt d m now t = .ok s') (hb : balancesOk s) :
    balancesOk s' := by
  unfold create_card_payment at h
  split at h
  · exact Except.noConfusion h
  split at h
  · exact Except.noConfusion h
  next card heqcard =>
  split at h
  · exact Except.noConfusion h
  split at h
  · exact Except.noConfusion h
  split at h
  · exact Except.noConfusion h
  split at h
  · exact Except.noConfusion h
  split at h
  · exact Except.noConfusion h
  next account heq =>
  split at h
  · exact Except.noConfusion h
  split at h
  · exact Except.noConfusion h
  simp only [Except.ok.injEq] at h
  subst h
  exact balList_bump s.accounts s.transactions card.accountId (-amt) _ _
    (findAccount_id heq) rfl (fun _ => rfl) (fun _ => Int.sub_eq_add_neg) hb

theorem create_transfer_ok_balances {s s' : LedgerState} {c src dst t₁ t₂ t₃ : Nat}
    {amt : Int} {d : Option String} {r : String}
    (h : create_transfer s c src dst amt d r t₁ t₂ t₃ = .ok s') (hb : balancesOk s) :
    balancesOk s' := by
  unfold create_transfer at h
  split at h
  · exact Except.noConfusion h
  split at h
  · exact Except.noConfusion h
  split at h
  · exact Except.noConfusion h
  next source heqsrc =>
  split at h
  · exact Except.noConfusion h
  split at h
  · exact Except.noConfusion h
  split at h
  · exact Except.noConfusion h
  next destination heqdst =>
  split at h
  · exact Except.noConfusion h
  split at h
  · exact Except.noConfusion h
  simp only [Except.ok.injEq] at h
  subst h
  exact balList_bump _ _ dst amt _ _ (findAccount_id heqdst) rfl
    (fun _ => rfl) (fun _ => rfl)
    (balList_bump _ _ src (-amt) _ _ (findAccount_id heqsrc) rfl
      (fun _ => rfl) (fun _ => Int.sub_eq_add_neg) hb)

theorem applyOp_balances (s : LedgerState) (op : Op) (h : balancesOk s) :
    balancesOk (applyOp s op) := by
  cases op with
  | deposit c a amt d t =>
    cases hres : create_deposit s c a amt d t with
    | ok s' => simpa only [applyOp, hres] using create_deposit_ok_balances hres h
    | error e => simpa only [applyOp, hres] using h
  | withdrawal c a amt d t =>
    cases hres : create_withdrawal s c a amt d t with
    | ok s' => simpa only [applyOp, hres] using create_withdrawal_ok_balances hres h
    | error e => simpa only [applyOp, hres] using h
  | cardPayment c cd amt d m now t =>
    cases hres : create_card_payment s c cd amt d m now t with
    | ok s' => simpa only [applyOp, hres] using create_card_payment_ok_balances hres h
    | error e => simpa only [applyOp, hres] using h
  | transfer c src dst amt d r t₁ t₂ t₃ =>
    cases hres : create_transfer s c src dst amt d r t₁ t₂ t₃ with
    | ok s' => simpa only [applyOp, hres] using create_transfer_ok_balances hres h
    | error e => simpa only [applyOp, hres] using h

/-- Claim C1: for every account and every sequence of committed operations
(deposits, withdrawals, card payments, transfers), the account's balance
equals the sum of signed amounts of its committed transactions — each
CREDIT transaction adds its amount, each DEBIT transaction subtracts it.
The invariant balancesOk holds after any sequence of committed operations
applied to a state satisfying it; each handler that creates transaction
rows adjusts the balances by exactly the signed amounts in the same
committed unit, and a failed handler commits nothing. -/
theorem spec_C1 (s : LedgerState) (ops : List Op) (h : balancesOk s) :
    balancesOk (applyOps s ops) := by
  induction ops generalizing s with
  | nil => simpa only [applyOps, List.foldl_nil] using h
  | cons op ops ih =>
    have h' := applyOp_balances s op h
    simpa only [applyOps, List.foldl_cons] using ih (applyOp s op) h'

/-- Witness for C1 at a concrete two-account ledger and a concrete
sequence: a deposit of 100.00, a withdrawal of 30.00, and a transfer of
20.00 from account 1 to account 2 — the scenario of spec section 8. -/
theorem spec_C1_witness :
    balancesOk ⟨[⟨1, 1, .checking, 0, .active, 0⟩, ⟨2, 1, .savings, 0, .active, 0⟩],
        [], [], []⟩ ∧
    balancesOk (applyOps
      ⟨[⟨1, 1, .checking, 0, .active, 0⟩, ⟨2, 1, .savings, 0, .active, 0⟩], [], [], []⟩
      [.deposit 1 1 10000 Option.none 100,
       .withdrawal 1 1 3000 Option.none 101,
       .transfer 1 1 2 2000 Option.none "TRF-1" 102 103 104]) :=
  ⟨by decide, spec_C1
    ⟨[⟨1, 1, .checking, 0, .active, 0⟩, ⟨2, 1, .savings, 0, .active, 0⟩], [], [], []⟩
    [.deposit 1 1 10000 Option.none 100,
     .withdrawal 1 1 3000 Option.none 101,
     .transfer 1 1 2 2000 Option.none "TRF-1" 102 103 104]
    (by decide)⟩

/-- Claim C2 as stated is false on the code: a withdrawal of 50.00 from an
ACTIVE owned account with balance 10.00 and overdraft_limit 100.00
satisfies balance − amount + overdraft_limit = 60.00 ≥ 0, so the claim says
it succeeds, but create_withdrawal (transactions.py 133) compares only
balance < amount and fails with InsufficientFunds. -/
theorem spec_C2_counterexample :
    create_withdrawal stateC2 1 1 5000 Option.none 7 = .error .insufficientFunds ∧
    (1000 : Int) < 5000 ∧ (1000 : Int) - 5000 + 10000 ≥ 0 := by
  decide

/-- Claim C2 amended: for every DEBIT operation (withdrawal, card payment,
transfer debit leg) that passes its preceding checks, the operation fails
with InsufficientFunds if and only if balance < amount — the account's
overdraft_limit is never consulted; when it fails, no state is committed. -/
theorem spec_C2 :
    (∀ (s : LedgerState) (c aid t : Nat) (amt : Int) (d : Option String) (acct : Account),
      0 < amt → findAccount s aid = some acct → acct.userId = c →
      acct.status = .active →
      (acct.balance < amt →
        create_withdrawal s c aid amt d t = .error .insufficientFunds) ∧
      (amt ≤ acct.balance → ∃ s', create_withdrawal s c aid amt d t = .ok s')) ∧
    (∀ (s : LedgerState) (c src dst t₁ t₂ t₃ : Nat) (amt : Int) (d : Option String)
      (r : String) (source destination : Account),
      0 < amt → src ≠ dst → findAccount s src = some source → source.userId = c →
      source.status = .active → findAccount s dst = some destination →
      destination.status = .active →
      (source.balance < amt →
        create_transfer s c src dst amt d r t₁ t₂ t₃ = .error .insufficientFunds) ∧
      (amt ≤ source.balance →
        ∃ s', create_transfer s c src dst amt d r t₁ t₂ t₃ = .ok s')) ∧
    (∀ (s : LedgerState) (c cd t now : Nat) (amt : Int) (d m : Option String)
      (card : CardRecord) (acct : Account),
      0 < amt → findCardOwned s c cd = some card → card.status ≠ .frozen →
      card.status ≠ .cancelled → ¬ card.expiryDate < now →
      (∀ l, card.spendingLimit = some l → l = 0 ∨ amt ≤ l) →
      findAccount s card.accountId = some acct → acct.status = .active →
      (acct.balance < amt →
        create_card_payment s c cd amt d m now t = .error .insufficientFunds) ∧
      (amt ≤ acct.balance →
        ∃ s', create_card_payment s c cd amt d m now t = .ok s')) := by
  refine ⟨?_, ?_, ?_⟩
  · intro s c aid t amt d acct hamt hfind hown hst
    have h0 : ¬ amt ≤ 0 := by omega
    constructor
    · intro hlt
      simp [create_withdrawal, hfind, h0, hown, hst, hlt]
    · intro hge
      have hnl : ¬ acct.balance < amt := by omega
      exact ⟨_, create_withdrawal_eq_ok hfind hown hst hamt hnl⟩
  · intro s c src dst t₁ t₂ t₃ amt d r source destination hamt hne hsrc hown hst hdst hdstst
    have h0 : ¬ amt ≤ 0 := by omega
    constructor
    · intro hlt
      simp [create_transfer, hsrc, hdst, h0, hne, hown, hst, hdstst, hlt]
    · intro hge
      have hnl : ¬ source.balance < amt := by omega
      exact ⟨_, create_transfer_eq_ok hne hsrc hown hst hdst hdstst hamt hnl⟩
  · intro s c cd t now amt d m card acct hamt hcard hfr hca hexp hlim hfind hst
    constructor
    · intro hlt
      exact create_card_payment_eq_insufficient hcard hfr hca hexp hlim hfind hst hamt hlt
    · intro hge
      have hnl : ¬ acct.balance < amt := by omega
      exact ⟨_, create_card_payment_eq_ok hcard hfr hca hexp hlim hfind hst hamt hnl⟩

/-- Witness for C2 at concrete inputs: on the overdraft account, a
withdrawal of 50.00 (balance 10.00) fails with InsufficientFunds, and a
withdrawal of 10.00 succeeds. -/
theorem spec_C2_witness :
    create_withdrawal stateC2 1 1 5000 Option.none 7 = .error .insufficientFunds ∧
    (∃ s', create_withdrawal stateC2 1 1 1000 Option.none 8 = .ok s') :=
  ⟨(spec_C2.1 stateC2 1 1 7 5000 Option.none
      { id := 1, userId := 1, type := .checking, balance := 1000,
        status := .active, overdraftLimit := 10000 }
      (by decide) (by decide) (by decide) (by decide)).1 (by decide),
   (spec_C2.1 stateC2 1 1 8 1000 Option.none
      { id := 1, userId := 1, type := .checking, balance := 1000,
        status := .active, overdraftLimit := 10000 }
      (by decide) (by decide) (by decide) (by decide)).2 (by decide)⟩

/-- Claim C3 as stated is false on the code: for a transfer whose source
account (id 2) has a larger identifier than its destination (id 1), the
handler still locks the source row first (transfers.py 46) and the
destination row second (68) — the lock trace is [2, 1], whose first element
is not the smaller identifier, and the run completes, so both locks were
really taken. -/
theorem spec_C3_counterexample :
    (create_transfer_run TransferFaults.none stateC3 7 2 1 500 Option.none
      "TRF-A" 10 11 12).locks = [2, 1] ∧
    (create_transfer_run TransferFaults.none stateC3 7 2 1 500 Option.none
      "TRF-A" 10 11 12).outcome = Option.none ∧
    (create_transfer_run TransferFaults.none stateC3 7 2 1 500 Option.none
      "TRF-A" 10 11 12).locks.head? ≠ some (min 2 1) := by
  decide

/-- Claim C3 amended: the transfer handler acquires its row locks in
request order — the source account is always locked first and the
destination account second — with no comparison of the two identifiers, so
the lock trace of any run is a prefix of [source, destination]. -/
theorem spec_C3 (faults : TransferFaults) (s : LedgerState) (c src dst : Nat)
    (amt : Int) (d : Option String) (r : String) (t₁ t₂ t₃ : Nat) :
    (create_transfer_run faults s c src dst amt d r t₁ t₂ t₃).locks = [] ∨
    (create_transfer_run faults s c src dst amt d r t₁ t₂ t₃).locks = [src] ∨
    (create_transfer_run faults s c src dst amt d r t₁ t₂ t₃).locks = [src, dst] := by
  unfold create_transfer_run
  repeat' split
  all_goals simp

/-- Claim C4: transfers are atomic — every run of the transfer handler that
ends in an error, including the injected store failures after the debit
leg, after the credit leg, and at the final commit of the Transfer row,
leaves the committed state (both balances, the transaction rows, and the
transfer rows) exactly as it was before the attempt. -/
theorem spec_C4 (faults : TransferFaults) (s : LedgerState) (c src dst : Nat)
    (amt : Int) (d : Option String) (r : String) (t₁ t₂ t₃ : Nat) (e : ErrKind) :
    (create_transfer_run faults s c src dst amt d r t₁ t₂ t₃).outcome = some e →
    (create_transfer_run faults s c src dst amt d r t₁ t₂ t₃).committed = s := by
  unfold create_transfer_run
  repeat' split
  all_goals intro h
  all_goals first
    | rfl
    | exact Option.noConfusion h

/-- Witness for C4: injecting a store failure at the credit leg of an
otherwise valid funded transfer yields an error and a committed state
identical to the initial one — the debit leg is not observable. -/
theorem spec_C4_witness :
    (create_transfer_run ⟨false, true, false⟩ stateC3 7 2 1 500 Option.none
      "TRF-A" 10 11 12).outcome = some .internal ∧
    (create_transfer_run ⟨false, true, false⟩ stateC3 7 2 1 500 Option.none
      "TRF-A" 10 11 12).committed = stateC3 :=
  ⟨by decide,
   spec_C4 ⟨false, true, false⟩ stateC3 7 2 1 500 Option.none "TRF-A" 10 11 12
     .internal (by decide)⟩

/-- Claim C5: every successful transfer of amount amt decreases the source
balance by exactly amt, increases the destination balance by exactly amt,
and prepends exactly one DEBIT transaction on the source and one CREDIT
transaction on the destination sharing one reference string, plus exactly
one Transfer row whose source_transaction_id and destination_transaction_id
are the ids of those two transactions. -/
theorem spec_C5 (s s' : LedgerState) (c src dst t₁ t₂ t₃ : Nat) (amt : Int)
    (d : Option String) (r : String)
    (h : create_transfer s c src dst amt d r t₁ t₂ t₃ = .ok s') :
    ∃ source destination : Account,
      findAccount s src = some source ∧
      findAccount s dst = some destination ∧
      findAccount s' src = some { source with balance := source.balance - amt } ∧
      findAccount s' dst = some { destination with balance := destination.balance + amt } ∧
      s'.transactions =
        { id := t₂, accountId := destination.id, type := .credit, amount := amt,
          description := some (d.getD ("Transfer from account " ++ toString source.id)),
          reference := some r, category := .transfer,
          cardId := Option.none, transferId := some t₃ } ::
        { id := t₁, accountId := source.id, type := .debit, amount := amt,
          description := some (d.getD ("Transfer to account " ++ toString destination.id)),
          reference := some r, category := .transfer,
          cardId := Option.none, transferId := some t₃ } :: s.transactions ∧
      s'.transfers =
        { id := t₃, sourceAccountId := source.id, destinationAccountId := destination.id,
          amount := amt, description := d, sourceTransactionId := t₁,
          destinationTransactionId := t₂ } :: s.transfers := by
  unfold create_transfer at h
  split at h
  · exact Except.noConfusion h
  next hamt0 =>
  split at h
  · exact Except.noConfusion h
  next hne =>
  split at h
  · exact Except.noConfusion h
  next source heqsrc =>
  split at h
  · exact Except.noConfusion h
  split at h
  · exact Except.noConfusion h
  split at h
  · exact Except.noConfusion h
  next destination heqdst =>
  split at h
  · exact Except.noConfusion h
  split at h
  · exact Except.noConfusion h
  simp only [Except.ok.injEq] at h
  subst h
  have hsrcid : source.id = src := findAccount_id heqsrc
  have hdstid : destination.id = dst := findAccount_id heqdst
  refine ⟨source, destination, heqsrc, heqdst, ?_, ?_, rfl, rfl⟩
  · show findAccount (updateAccount
        (updateAccount s src (fun a => { a with balance := a.balance - amt }))
        dst (fun a => { a with balance := a.balance + amt })) src
      = some { source with balance := source.balance - amt }
    rw [findAccount_updateAccount _ dst src
        (fun a => { a with balance := a.balance + amt }) (fun _ => rfl),
      findAccount_updateAccount s src src
        (fun a => { a with balance := a.balance - amt }) (fun _ => rfl),
      heqsrc, Option.map_some', if_pos hsrcid, Option.map_some']
    have hnedst : ¬ ({ source with balance := source.balance - amt } : Account).id = dst := by
      intro hc
      exact hne (hsrcid ▸ hc)
    rw [if_neg hnedst]
  · show findAccount (updateAccount
        (updateAccount s src (fun a => { a with balance := a.balance - amt }))
        dst (fun a => { a with balance := a.balance + amt })) dst
      = some { destination with balance := destination.balance + amt }
    rw [findAccount_updateAccount _ dst dst
        (fun a => { a with balance := a.balance + amt }) (fun _ => rfl),
      findAccount_updateAccount s src dst
        (fun a => { a with balance := a.balance - amt }) (fun _ => rfl),
      heqdst, Option.map_some']
    have hnesrc : ¬ destination.id = src := by
      intro hc
      exact hne (hc ▸ hdstid)
    rw [if_neg hnesrc, Option.map_some', if_pos hdstid]

/-- Witness for C5: the 5.00 transfer from account 2 to account 1 on
stateC3 succeeds with committed state stateC3', and the theorem exhibits
its two legs and linking Transfer row. -/
theorem spec_C5_witness :
    ∃ source destination : Account,
      findAccount stateC3 2 = some source ∧
      findAccount stateC3 1 = some destination ∧
      findAccount stateC3' 2 = some { source with balance := source.balance - 500 } ∧
      findAccount stateC3' 1 = some { destination with balance := destination.balance + 500 } ∧
      stateC3'.transactions =
        { id := 11, accountId := destination.id, type := .credit, amount := 500,
          description := some ((Option.none).getD ("Transfer from account " ++ toString source.id)),
          reference := some "TRF-A", category := .transfer,
          cardId := Option.none, transferId := some 12 } ::
        { id := 10, accountId := source.id, type := .debit, amount := 500,
          description := some ((Option.none).getD ("Transfer to account " ++ toString destination.id)),
          reference := some "TRF-A", category := .transfer,
          cardId := Option.none, transferId := some 12 } :: stateC3.transactions ∧
      stateC3'.transfers =
        { id := 12, sourceAccountId := source.id, destinationAccountId := destination.id,
          amount := 500, description := Option.none, sourceTransactionId := 10,
          destinationTransactionId := 11 } :: stateC3.transfers :=
  spec_C5 stateC3 stateC3' 7 2 1 10 11 12 500 Option.none "TRF-A" (by decide)

/-- Claim C6: on an ACTIVE account owned by the caller with balance at
least 0, a deposit of a valid amount A followed by a withdrawal of A both
succeed and leave the account row — in particular its balance — exactly as
it was (exact fixed-point equality on integer cents, no drift). -/
theorem spec_C6 (s : LedgerState) (c aid t₁ t₂ : Nat) (A : Int)
    (d₁ d₂ : Option String) (acct : Account)
    (hfind : findAccount s aid = some acct) (hown : acct.userId = c)
    (hst : acct.status = .active) (hbal : 0 ≤ acct.balance)
    (hA : 0 < A) (_hcap : A ≤ 5000000) :
    ∃ s₁ s₂, create_deposit s c aid A d₁ t₁ = .ok s₁ ∧
             create_withdrawal s₁ c aid A d₂ t₂ = .ok s₂ ∧
             findAccount s₂ aid = some acct := by
  have h₁ := @create_deposit_eq_ok s c aid t₁ A d₁ acct hfind hown hst hA
  have e₁ : findAccount
      ({ updateAccount s aid (fun a => { a with balance := a.balance + A }) with
         transactions :=
           { id := t₁, accountId := acct.id, type := .credit, amount := A,
             description := some (d₁.getD "Deposit"), reference := Option.none,
             category := .deposit, cardId := Option.none, transferId := Option.none }
           :: s.transactions } : LedgerState) aid
      = some { acct with balance := acct.balance + A } := by
    show findAccount
        (updateAccount s aid (fun a => { a with balance := a.balance + A })) aid
      = some { acct with balance := acct.balance + A }
    rw [findAccount_updateAccount s aid aid
        (fun a => { a with balance := a.balance + A }) (fun _ => rfl),
      hfind, Option.map_some', if_pos (findAccount_id hfind)]
  have hnl : ¬ ({ acct with balance := acct.balance + A } : Account).balance < A := by
    show ¬ acct.balance + A < A
    omega
  have h₂ := @create_withdrawal_eq_ok _ c aid t₂ A d₂ _ e₁ hown hst hA hnl
  refine ⟨_, _, h₁, h₂, ?_⟩
  show findAccount
      (updateAccount
        ({ updateAccount s aid (fun a => { a with balance := a.balance + A }) with
           transactions :=
             { id := t₁, accountId := acct.id, type := .credit, amount := A,
               description := some (d₁.getD "Deposit"), reference := Option.none,
               category := .deposit, cardId := Option.none, transferId := Option.none }
             :: s.transactions } : LedgerState)
        aid (fun a => { a with balance := a.balance - A })) aid
    = some acct
  rw [findAccount_updateAccount _ aid aid
      (fun a => { a with balance := a.balance - A }) (fun _ => rfl),
    e₁, Option.map_some', if_pos (findAccount_id hfind)]
  have : acct.balance + A - A = acct.balance := by ring
  show some { acct with balance := acct.balance + A - A } = some acct
  rw [this]

/-- Witness for C6: on the overdraft account (balance 10.00), depositing
25.00 and then withdrawing 25.00 returns the account row to exactly its
initial value. -/
theorem spec_C6_witness :
    ∃ s₁ s₂, create_deposit stateC2 1 1 2500 Option.none 21 = .ok s₁ ∧
             create_withdrawal s₁ 1 1 2500 Option.none 22 = .ok s₂ ∧
             findAccount s₂ 1 =
               some { id := 1, userId := 1, type := .checking, balance := 1000,
                      status := .active, overdraftLimit := 10000 } :=
  spec_C6 stateC2 1 1 21 22 2500 Option.none Option.none
    { id := 1, userId := 1, type := .checking, balance := 1000,
      status := .active, overdraftLimit := 10000 }
    (by decide) (by decide) (by decide) (by decide) (by decide) (by decide)

/-- Claim C7: closing an account owned by the caller fails with
InvalidState when the account is already CLOSED or its balance is not
exactly 0 (and then no state change is committed, so the status is
unchanged); when the balance is exactly 0 and the account is not already
CLOSED, closing succeeds and the committed state is the input state with
that account's status set to CLOSED and nothing else changed. -/
theorem spec_C7 (s : LedgerState) (c aid : Nat) (acct : Account)
    (hfind : findAccountOwned s c aid = some acct) :
    ((acct.status = .closed ∨ acct.balance ≠ 0) →
      close_account s c aid = .error .invalidState) ∧
    ((acct.status ≠ .closed ∧ acct.balance = 0) →
      close_account s c aid
        = .ok (updateAccount s aid (fun a => { a with status := .closed }))) := by
  constructor
  · intro h
    by_cases hc : acct.status = .closed
    · simp [close_account, hfind, hc]
    · rcases h with h | h
      · exact absurd h hc
      · simp [close_account, hfind, hc, h]
  · rintro ⟨hc, hb⟩
    simp [close_account, hfind, hc, hb]

/-- Witness for C7 matching the spec scenario: closing the account holding
0.01 fails with InvalidState, closing the account holding exactly 0.00
succeeds and sets its status to CLOSED. -/
theorem spec_C7_witness :
    close_account stateC7 1 1 = .error .invalidState ∧
    close_account stateC7 1 2
      = .ok (updateAccount stateC7 2 (fun a => { a with status := .closed })) :=
  ⟨(spec_C7 stateC7 1 1
      { id := 1, userId := 1, type := .checking, balance := 1,
        status := .active, overdraftLimit := 0 } (by decide)).1
      (Or.inr (by decide)),
   (spec_C7 stateC7 1 2
      { id := 2, userId := 1, type := .checking, balance := 0,
        status := .active, overdraftLimit := 0 } (by decide)).2
      ⟨by decide, by decide⟩⟩

/-- Claim C8 is the documented intent but the code contradicts itself: the
create_card handler builds the Card row with no CVV value (cards.py 145-154,
matching the claim), yet models.py line 132 declares the cards.cvv column
NOT NULL, so the row violates the declared schema and the insert of every
card fails — here with the concrete valid request of test_create_card_success
(active owned account, four-digit PIN, fresh card number). -/
theorem spec_C8_bug :
    create_card (fun _ _ => "042") stateC8 1 1 [4242] "John Doe" "1234" "pinhash"
      .debit Option.none 1000 7 = .error .internal ∧
    cardRowRespectsNotNull
      { id := 7, accountId := 1, cardNumber := 4242, cardHolderName := "John Doe",
        cvv := Option.none, pinHash := "pinhash", cardType := .debit,
        expiryDate := 1000, status := .active, spendingLimit := Option.none } = false := by
  decide

/-- Claim C9 as stated is false on the code: a withdrawal rejected because
the account is FROZEN (InvalidState) and a withdrawal rejected for
insufficient funds (InsufficientFunds) are distinct error kinds yet surface
with the same result code 400, so a client cannot branch on the result code
alone. -/
theorem spec_C9_counterexample :
    create_withdrawal stateC9 1 1 100 Option.none 50 = .error .invalidState ∧
    create_withdrawal stateC9 1 2 100 Option.none 51 = .error .insufficientFunds ∧
    ErrKind.invalidState ≠ ErrKind.insufficientFunds ∧
    statusCodeOf .invalidState = statusCodeOf .insufficientFunds := by
  decide

/-- Claim C9 amended: NotFound (404) and Forbidden (403) each carry a
result code distinct from every other kind, but InvalidArgument,
InvalidState, InsufficientFunds, LimitExceeded and Conflict all surface as
400, and Busy and Internal both surface as 500; two kinds are
distinguishable by result code exactly when they are not in the same one of
those two groups. -/
theorem spec_C9 :
    ∀ k₁ k₂ : ErrKind, statusCodeOf k₁ = statusCodeOf k₂ ↔
      (k₁ = k₂ ∨ (k₁ ∈ badRequestKinds ∧ k₂ ∈ badRequestKinds) ∨
        (k₁ ∈ serverErrorKinds ∧ k₂ ∈ serverErrorKinds)) := by
  decide

/-- Claim C10: request validation rejects, before any ledger logic runs and
so regardless of any account state, every deposit above 100000, withdrawal
above 50000, transfer above 1000000 and card payment above 10000, as well
as any amount with more than two fractional digits; in particular a
withdrawal of 60000 always fails validation. -/
theorem spec_C10 :
    (∀ (s : LedgerState) (c a t : Nat) (d : Option String) (v : ℚ), 100000 < v →
      deposit_endpoint s c a v d t = .error .validation) ∧
    (∀ (s : LedgerState) (c a t : Nat) (d : Option String) (v : ℚ), 50000 < v →
      withdrawal_endpoint s c a v d t = .error .validation) ∧
    (∀ (s : LedgerState) (c src dst t₁ t₂ t₃ : Nat) (d : Option String) (r : String)
      (v : ℚ), 1000000 < v →
      transfer_endpoint s c src dst v d r t₁ t₂ t₃ = .error .validation) ∧
    (∀ (s : LedgerState) (c cd now t : Nat) (d m : Option String) (v : ℚ), 10000 < v →
      card_payment_endpoint s c cd v d m now t = .error .validation) ∧
    (∀ v : ℚ, (100 * v).den ≠ 1 →
      ¬ DepositCreate_accepts v ∧ ¬ WithdrawalCreate_accepts v ∧
      ¬ TransferCreate_accepts v ∧ ¬ CardPaymentCreate_accepts v) ∧
    (∀ (s : LedgerState) (c a t : Nat) (d : Option String),
      withdrawal_endpoint s c a 60000 d t = .error .validation) := by
  refine ⟨?_, ?_, ?_, ?_, ?_, ?_⟩
  · intro s c a t d v hv
    rw [deposit_endpoint, if_neg]
    intro hacc
    exact absurd hacc.2.1 (not_le.mpr hv)
  · intro s c a t d v hv
    rw [withdrawal_endpoint, if_neg]
    intro hacc
    exact absurd hacc.2.1 (not_le.mpr hv)
  · intro s c src dst t₁ t₂ t₃ d r v hv
    rw [transfer_endpoint, if_neg]
    intro hacc
    exact absurd hacc.2.1 (not_le.mpr hv)
  · intro s c cd now t d m v hv
    rw [card_payment_endpoint, if_neg]
    intro hacc
    exact absurd hacc.2.1 (not_le.mpr hv)
  · intro v hv
    exact ⟨fun hacc => hv hacc.2.2, fun hacc => hv hacc.2.2,
      fun hacc => hv hacc.2.2, fun hacc => hv hacc.2.2⟩
  · intro s c a t d
    rw [withdrawal_endpoint, if_neg]
    intro hacc
    have := hacc.2.1
    norm_num at this

/-- Witness for C10: a deposit of 100001 and a withdrawal of 60000 are both
rejected by validation on the empty ledger, and 1/3 — which has more than
two fractional digits — is rejected by the deposit schema. -/
theorem spec_C10_witness :
    deposit_endpoint emptyState 1 1 100001 Option.none 5 = .error .validation ∧
    withdrawal_endpoint emptyState 1 1 60000 Option.none 6 = .error .validation ∧
    ¬ DepositCreate_accepts (1 / 3) :=
  ⟨spec_C10.1 emptyState 1 1 5 Option.none 100001 (by norm_num),
   spec_C10.2.2.2.2.2 emptyState 1 1 6 Option.none,
   (spec_C10.2.2.2.2.1 (1 / 3) (by norm_num)).1⟩

end Bank
